import Mathlib

/-!
Shallow embedding of the FocusFlow Focus Session Analytics Engine
(src/v3.py and src/v4.py) and proofs about the spec's claims.

Modelling conventions:
* Python `str` values are Lean `String`s; character-level work is done on
  `List Char`.  Python's `str.lower` is modelled with ASCII lowering
  (`Char.toLower`), which agrees with CPython on the ASCII inputs the
  program manipulates.
* Python `float` scores and `datetime`/`timedelta` quantities are modelled
  as `ℚ`.  Every claim settled here is about exact ranges, clamps and
  bookkeeping identities that are insensitive to binary rounding.
* Network calls (`requests.post` / the Ollama or x.ai backends) are
  modelled by passing the backend's response as an explicit argument of an
  inductive response type whose `failure` constructor covers every
  exception path (unreachable service, timeout, malformed body, missing
  JSON, JSON decode error): the Python code wraps the whole interaction in
  `try/except Exception` and all of those end in the same `except` branch.
* Python dictionaries used as caches are association lists; a `dict`
  indexing that can raise `KeyError` (`session_stats[classification]`)
  returns `Option`.
-/

/-! ### Character and string helpers -/

/-- Model of Python's `str.lower` on a character (ASCII). -/
def lowerChar (c : Char) : Char := c.toLower

/-- Model of Python's `str.lower`. -/
def lowerStr (s : String) : String := String.mk (s.toList.map lowerChar)

/-- Decides whether `needle` occurs as a prefix of `hay` (character lists). -/
def isPrefixL : List Char → List Char → Bool
  | [], _ => true
  | _ :: _, [] => false
  | a :: as, b :: bs => a = b && isPrefixL as bs

/-- Decides whether `needle` occurs as a contiguous substring of `hay`
(character lists); models Python's `needle in hay`. -/
def isInfixL (needle : List Char) : List Char → Bool
  | [] => isPrefixL needle []
  | hay@(_ :: rest) => isPrefixL needle hay || isInfixL needle rest

/-- Model of Python's `needle in hay` on strings. -/
def strIn (needle hay : String) : Bool := isInfixL needle.toList hay.toList

/-- Maximal runs of characters satisfying `p`; the accumulator holds the
current run reversed. -/
def runsByGo (p : Char → Bool) : List Char → List Char → List (List Char)
  | [], acc => if acc.isEmpty then [] else [acc.reverse]
  | c :: cs, acc =>
    if p c then runsByGo p cs (c :: acc)
    else if acc.isEmpty then runsByGo p cs []
    else acc.reverse :: runsByGo p cs []

/-- Maximal runs of characters satisfying `p`. -/
def runsBy (p : Char → Bool) (l : List Char) : List (List Char) := runsByGo p l []

/-- Python regex `\w` character class: alphanumerics plus underscore. -/
def isWordChar (c : Char) : Bool := c.isAlphanum || c = '_'

/-- Model of Python's `re.findall(r'\w+', s)`. -/
def pyFindallWords (s : String) : List String :=
  (runsBy isWordChar s.toList).map String.mk

/-- Model of Python's `s.split()` (split on whitespace runs, dropping
empty tokens). -/
def pySplitWs (s : String) : List String :=
  (runsBy (fun c => !c.isWhitespace) s.toList).map String.mk

/-- Duplicate removal keeping first occurrences, with an explicit `seen`
list.  CPython's `list(set(words))` enumerates the distinct elements in an
unspecified (hash-dependent) order; this model fixes first-occurrence
order.  The properties proved below (which strings occur, cardinality
bounds) hold for any enumeration order. -/
def dedupGo : List String → List String → List String
  | [], _ => []
  | x :: xs, seen =>
    if seen.contains x then dedupGo xs seen else x :: dedupGo xs (x :: seen)

/-- Model of Python's `list(set(l))` for string lists (see `dedupGo`). -/
def dedupFirst (l : List String) : List String := dedupGo l []

/-! ### Domain extraction (`ContentAnalyzer.extract_domain`)

The two regex patterns searched against the window title are
`r'- ([^-]+\.com)'` and `r'([^|\s]+\.[a-z]{2,4})'`.  v3 searches the raw
title with `re.IGNORECASE` and lowercases the captured group; v4 searches
the already lowercased title.  Since every character class involved is
closed under ASCII lowering, both are modelled by running a case-sensitive
matcher over the lowered title.  The matchers below implement Python
`re.search` semantics for these two patterns: leftmost starting position,
greedy quantifiers with backtracking. -/

/-- Does the literal `".com"` occur in `l` at offset `m`? -/
def dotComAt (l : List Char) (m : Nat) : Bool :=
  isPrefixL ('.' :: 'c' :: 'o' :: 'm' :: []) (l.drop m)

/-- Backtracking search for the greedy split point of `[^-]+\.com`:
largest `m ≥ 1` (at most the length of the maximal `[^-]` run) such that
`".com"` occurs at offset `m`. -/
def findComBack (l : List Char) : Nat → Option Nat
  | 0 => none
  | m + 1 => if dotComAt l (m + 1) then some (m + 1) else findComBack l m

/-- Attempt to match the capture group `([^-]+\.com)` at the start of
`rest` (the text just after a `"- "` occurrence). -/
def capCom (rest : List Char) : Option (List Char) :=
  match findComBack rest (rest.takeWhile (fun c => c ≠ '-')).length with
  | some m => some (rest.take (m + 4))
  | none => none

/-- One attempt of the `- ([^-]+\.com)` search at a position whose first
character is `c` and whose remaining text is `tl`. -/
def scanStepCom (c : Char) (tl : List Char) : Option (List Char) :=
  if c = '-' ∧ tl.head? = some ' ' then capCom tl.tail else none

/-- Leftmost search for `- ([^-]+\.com)` (Python `re.search`), returning
the captured group. -/
def scanCom : List Char → Option (List Char)
  | [] => none
  | c :: tl =>
    match scanStepCom c tl with
    | some cap => some cap
    | none => scanCom tl

/-- Character class `[^|\s]` of the second domain pattern. -/
def isTokChar (c : Char) : Bool := c ≠ '|' && !c.isWhitespace

/-- ASCII lowercase letter (`[a-z]` on the lowered title). -/
def isLowAlpha (c : Char) : Bool := 'a' ≤ c && c ≤ 'z'

/-- Backtracking search for the greedy split point of
`[^|\s]+\.[a-z]{2,4}`: largest `m ≥ 1` at which a dot followed by two to
four letters begins; returns the full capture. -/
def backTok (rest : List Char) : Nat → Option (List Char)
  | 0 => none
  | m + 1 =>
    if (rest.drop (m + 1)).head? = some '.' then
      if 2 ≤ min (((rest.drop (m + 2)).takeWhile isLowAlpha).length) 4 then
        some (rest.take (m + 1 + 1 + min (((rest.drop (m + 2)).takeWhile isLowAlpha).length) 4))
      else backTok rest m
    else backTok rest m

/-- Attempt to match `([^|\s]+\.[a-z]{2,4})` at the start of `rest`. -/
def capTok (rest : List Char) : Option (List Char) :=
  backTok rest (rest.takeWhile isTokChar).length

/-- Leftmost search for `([^|\s]+\.[a-z]{2,4})` (Python `re.search`). -/
def scanTok : List Char → Option (List Char)
  | [] => none
  | c :: tl =>
    match capTok (c :: tl) with
    | some cap => some cap
    | none => scanTok tl

/-- Model of v3's `ContentAnalyzer.extract_domain` (src/v3.py lines
111-140).  The `browser_patterns` loop mixes the two regexes with the
plain strings `'YouTube'`, `'Wikipedia'`, `'GitHub'`, `'Stack Overflow'`,
searched case-insensitively and answered with `pattern.lower()`; the
`elif` ladder that follows is therefore only reachable when none of the
four names occurs. -/
def extractDomainV3 (title process : String) : String :=
  let titleL := lowerStr title
  let processL := lowerStr process
  if strIn "code" processL || strIn "visual studio code" titleL then
    if strIn "focusflow" titleL || strIn "daip" titleL then "focusflow" else "code"
  else
    match scanCom titleL.toList with
    | some cap => String.mk cap
    | none =>
      match scanTok titleL.toList with
      | some cap => String.mk cap
      | none =>
        if strIn "youtube" titleL then "youtube"
        else if strIn "wikipedia" titleL then "wikipedia"
        else if strIn "github" titleL then "github"
        else if strIn "stack overflow" titleL then "stack overflow"
        else if strIn "youtube" titleL then "youtube.com"
        else if strIn "wikipedia" titleL then "wikipedia.org"
        else if strIn "stack overflow" titleL then "stackoverflow.com"
        else if strIn "github" titleL then "github.com"
        else processL

/-- Model of v4's `ContentAnalyzer.extract_domain` (src/v4.py lines
94-120): the editor branch returns plain `'code'`, the regex loop runs on
the lowered title, then the `predefined_domains` table is scanned in
insertion order. -/
def extractDomainV4 (title process : String) : String :=
  let titleL := lowerStr title
  let processL := lowerStr process
  if strIn "code" processL || strIn "visual studio code" titleL then "code"
  else
    match scanCom titleL.toList with
    | some cap => String.mk cap
    | none =>
      match scanTok titleL.toList with
      | some cap => String.mk cap
      | none =>
        if strIn "youtube" titleL then "youtube.com"
        else if strIn "wikipedia" titleL then "wikipedia.org"
        else if strIn "stack overflow" titleL then "stackoverflow.com"
        else if strIn "github" titleL then "github.com"
        else processL

/-! ### Relevance classification (`ContentAnalyzer`) -/

/-- The four-way classification taxonomy. -/
def validClassifications : List String :=
  ["DIRECT", "PERIPHERAL", "INDIRECT", "DISTRACTION"]

/-- The fixed score bands shared verbatim by `_rule_based_classify` in
both v3 (lines 266-273) and v4 (lines 240-247). -/
def classifyBands (s : ℚ) : String :=
  if s ≥ 0.8 then "DIRECT"
  else if s ≥ 0.6 then "PERIPHERAL"
  else if s ≥ 0.3 then "INDIRECT"
  else "DISTRACTION"

/-- Association-list lookup modelling Python `dict` reads. -/
def lookupA {α : Type} : List (String × α) → String → Option α
  | [], _ => none
  | (k, v) :: rest, key => if k = key then some v else lookupA rest key

/-- v3's `educational_domains` dict (src/v3.py lines 75-92). -/
def educationalDomainsV3 : List (String × ℚ) :=
  [("youtube.com", 0.7), ("coursera.org", 0.95), ("edx.org", 0.95),
   ("khanacademy.org", 0.95), ("arxiv.org", 0.90), ("wikipedia.org", 0.80),
   ("stackoverflow.com", 0.85), ("github.com", 0.80), ("medium.com", 0.60),
   ("towardsdatascience.com", 0.85), ("papers.withcode.com", 0.90),
   ("scholar.google.com", 0.90), ("researchgate.net", 0.85), ("code", 0.85),
   ("focusflow", 0.90), ("daip", 0.90)]

/-- v3's `educational_domains.get(domain, 0.5)` (src/v3.py line 244). -/
def eduScoreV3 (domain : String) : ℚ :=
  (lookupA educationalDomainsV3 domain).getD 0.5

/-- v3's `distraction_domains` dict (src/v3.py lines 94-103). -/
def distractionDomainsV3 : List (String × ℚ) :=
  [("facebook.com", 0.05), ("twitter.com", 0.10), ("instagram.com", 0.05),
   ("tiktok.com", 0.05), ("reddit.com", 0.20), ("netflix.com", 0.05),
   ("twitch.tv", 0.10), ("gaming", 0.15)]

/-- v3's distraction-table adjustment: `if domain in distraction_domains:
base = min(base, distraction_domains[domain])` (src/v3.py lines 250-251). -/
def distAdjustV3 (domain : String) (b : ℚ) : ℚ :=
  match lookupA distractionDomainsV3 domain with
  | some v => min b v
  | none => b

/-- The project-identifying terms of both versions. -/
def projectTerms : List String := ["focusflow", "daip", "v3.py", "activity_tracker"]

/-- v3's YouTube educational-term list (src/v3.py line 260). -/
def educationalTerms : List String :=
  ["lecture", "tutorial", "course", "crash course", "educational",
   "introduction", "neural", "cnn", "convolutional"]

/-- The `base_score` block of v3's `_rule_based_classify` (src/v3.py
lines 244-251): educational table, project-term boost, distraction
dampening. -/
def baseScoreV3 (titleL domain : String) : ℚ :=
  let base0 := eduScoreV3 domain
  let base1 :=
    if domain = "focusflow" || projectTerms.any (fun t => strIn t titleL) then
      max base0 0.9
    else base0
  distAdjustV3 domain base1

/-- The `content_score` block of v3's `_rule_based_classify` (src/v3.py
lines 253-262): `0.2` per keyword occurring in the lowered title, `0.3`
if a description word occurs, `0.4` for educational terms on YouTube. -/
def contentScoreV3 (titleL descriptionL domain : String)
    (keywords : List String) : ℚ :=
  let content0 :=
    ((keywords.filter (fun k => strIn (lowerStr k) titleL)).length : ℚ) * 0.2
  let content1 :=
    if (pySplitWs descriptionL).any (fun w => strIn w titleL) then content0 + 0.3
    else content0
  if domain = "youtube.com" && educationalTerms.any (fun t => strIn t titleL) then
    content1 + 0.4
  else content1

/-- Model of v3's `ContentAnalyzer._rule_based_classify` (src/v3.py lines
239-275).  `goal` is lowered by the source but never used afterwards. -/
def ruleBasedClassifyV3 (title goal description domain : String)
    (keywords : List String) : ℚ × String :=
  let titleL := lowerStr title
  let descriptionL := lowerStr description
  let finalScore :=
    min ((baseScoreV3 titleL domain + contentScoreV3 titleL descriptionL domain keywords) / 2) 1
  (finalScore,
    if finalScore ≥ 0.8 then "DIRECT"
    else if finalScore ≥ 0.6 then "PERIPHERAL"
    else if finalScore ≥ 0.3 then "INDIRECT"
    else "DISTRACTION")

/-- v4's distraction-domain set (src/v4.py line 234). -/
def distractionDomainsV4 : List String :=
  ["facebook.com", "twitter.com", "instagram.com", "tiktok.com",
   "reddit.com", "netflix.com", "twitch.tv"]

/-- Model of v4's `ContentAnalyzer._rule_based_classify` (src/v4.py lines
220-249): start from `0.5`, add `0.1` per keyword match, `0.3` for a
project term, dampen distraction domains with `max(0.05, score - 0.4)`,
clamp above at `1.0`, then apply the bands. -/
def ruleBasedClassifyV4 (title goal description domain : String)
    (keywords : List String) : ℚ × String :=
  let titleL := lowerStr title
  let f0 := 0.5 + ((keywords.filter (fun k => strIn (lowerStr k) titleL)).length : ℚ) * 0.1
  let f1 := if projectTerms.any (fun t => strIn t titleL) then f0 + 0.3 else f0
  let f2 := if distractionDomainsV4.contains domain then max 0.05 (f1 - 0.4) else f1
  let finalScore := min f2 1
  (finalScore,
    if finalScore ≥ 0.8 then "DIRECT"
    else if finalScore ≥ 0.6 then "PERIPHERAL"
    else if finalScore ≥ 0.3 then "INDIRECT"
    else "DISTRACTION")

/-- Model of v4's `ContentAnalyzer._score_from_classification` (src/v4.py
lines 210-218): `scores.get(classification, 0.0)`. -/
def scoreFromClassification (classification : String) : ℚ :=
  if classification = "DIRECT" then 0.9
  else if classification = "PERIPHERAL" then 0.7
  else if classification = "INDIRECT" then 0.4
  else if classification = "DISTRACTION" then 0.1
  else 0

/-- The classification cache key: `md5(f"{title}_{goal}_{description}_{domain}")`.
md5 is a fixed function, so key equality follows from equality of its
input string; the model uses the input string itself as the key. -/
def clsCacheKey (title goal description domain : String) : String :=
  title ++ "_" ++ goal ++ "_" ++ description ++ "_" ++ domain

/-- Backend response for v3's `_ai_classify`: `failure` is any path that
ends in the `except` branch (request exception, HTTP error status, body
without a JSON object, JSON decode error, missing keys); `json s c` is a
response whose extracted JSON object carried `relevance_score: s` and
`classification: c`. -/
inductive AiResponse where
  | failure
  | json (score : ℚ) (classification : String)
deriving DecidableEq

/-- Model of v3's `ContentAnalyzer._ai_classify` (src/v3.py lines
187-237).  `keywords` is the value produced by `_ai_generate_keywords`
(modelled separately below) and is also what a fallback passes on.  Note
the success path stores and returns the parsed score and label without any
validation. -/
def aiClassifyV3 (cache : List (String × (ℚ × String)))
    (title goal description domain : String) (keywords : List String)
    (resp : AiResponse) : (ℚ × String) × List (String × (ℚ × String)) :=
  let key := clsCacheKey title goal description domain
  match lookupA cache key with
  | some v => (v, cache)
  | none =>
    match resp with
    | .json s c => ((s, c), (key, (s, c)) :: cache)
    | .failure => (ruleBasedClassifyV3 title goal description domain keywords, cache)

/-- Backend response for v4's `_llm_classify`: `failure` is any path that
ends in the `except` branch; `label s` is a response whose `response`
field was the string `s` (before `.strip().upper()`). -/
inductive LlmResponse where
  | failure
  | label (s : String)
deriving DecidableEq

/-- Model of Python's `str.strip` (whitespace from both ends). -/
def stripStr (s : String) : String :=
  String.mk (((s.toList.dropWhile Char.isWhitespace).reverse.dropWhile
    Char.isWhitespace).reverse)

/-- Model of Python's `str.upper` (ASCII). -/
def upperStr (s : String) : String := String.mk (s.toList.map Char.toUpper)

/-- Model of v4's `ContentAnalyzer._llm_classify` (src/v4.py lines
158-207).  `keywords` is the value produced by `_llm_generate_keywords`.
A label outside `valid_classifications` (after `.strip().upper()`) falls
back to rule-based classification, as does any failure. -/
def llmClassifyV4 (cache : List (String × (ℚ × String)))
    (title goal description domain : String) (keywords : List String)
    (resp : LlmResponse) : (ℚ × String) × List (String × (ℚ × String)) :=
  let key := clsCacheKey title goal description domain
  match lookupA cache key with
  | some v => (v, cache)
  | none =>
    match resp with
    | .failure => (ruleBasedClassifyV4 title goal description domain keywords, cache)
    | .label raw =>
      let classification := upperStr (stripStr raw)
      if validClassifications.contains classification then
        let score := scoreFromClassification classification
        ((score, classification), (key, (score, classification)) :: cache)
      else (ruleBasedClassifyV4 title goal description domain keywords, cache)

/-! ### Keyword derivation (`_ai_generate_keywords` / `_llm_generate_keywords`)

The post-response logic of v3's `_ai_generate_keywords` (src/v3.py lines
142-185) and v4's `_llm_generate_keywords` (src/v4.py lines 122-156) is
identical; one model covers both. -/

/-- The keyword cache key: `md5(f"{goal}_{description}")`.  As with
`clsCacheKey`, the model keys by the md5 input string itself: equal input
strings give equal md5 digests, which is exactly what the cache compares. -/
def kwCacheKey (goal description : String) : String := goal ++ "_" ++ description

/-- Backend response for keyword generation: `failure` is any path ending
in the `except` branch; `array kws` is a response whose extracted JSON
array parsed to the string list `kws`. -/
inductive KwResponse where
  | failure
  | array (kws : List String)
deriving DecidableEq

/-- Model of `_ai_generate_keywords` / `_llm_generate_keywords`.  On a
parsed array shorter than 20 the split words of goal and description are
appended; the first 50 entries are cached and returned.  On failure the
`\w+` tokens of the lowered goal and description are deduplicated and
capped at 50, without caching. -/
def generateKeywords (cache : List (String × List String))
    (goal description : String) (resp : KwResponse) :
    List String × List (String × List String) :=
  let key := kwCacheKey goal description
  match lookupA cache key with
  | some v => (v, cache)
  | none =>
    match resp with
    | .array kws =>
      let kws2 :=
        if kws.length < 20 then
          kws ++ pySplitWs (lowerStr goal) ++ pySplitWs (lowerStr description)
        else kws
      let stored := kws2.take 50
      (stored, (key, stored) :: cache)
    | .failure =>
      ((dedupFirst (pyFindallWords (lowerStr goal ++ " " ++ lowerStr description))).take 50,
        cache)

/-! ### Session state machine (`EnhancedWindowMonitor`)

Timestamps (`datetime.now()`) are rationals supplied by the caller; each
Python operation calls `datetime.now()` once or twice within the same
instant-granularity, modelled by a single `now` argument per operation.
The classifier result for a new observation depends on network I/O, so
`process_window_change` takes it as an explicit `(score, classification)`
argument, while the pure `extract_domain` (v3's version) is computed in
place.  v3 and v4 differ in `process_window_change` only in the
context-switch condition (v3 increments only on transitions into
DISTRACTION, v4 on any change, src/v3.py lines 544-548 vs src/v4.py lines
507-509) and in which `extract_domain` is called; `start_session` and
`end_session` are identical in both files.  The model follows v3. -/

/-- Model of the `Activity` dataclass (src/v3.py lines 58-71). -/
structure ActivityR where
  timestamp : ℚ
  title : String
  process : String
  url : Option String
  classification : String
  relevanceScore : ℚ
  duration : Option ℚ
  tags : List String
deriving DecidableEq

/-- Model of the `FocusSession` dataclass (src/v3.py lines 41-56). -/
structure FocusSessionR where
  goal : String
  description : String
  startTime : ℚ
  endTime : Option ℚ
  activities : List ActivityR
deriving DecidableEq

/-- The `session_stats` dictionary: exactly the four classification keys
(src/v3.py lines 378-383). -/
structure SessionStatsR where
  direct : ℚ
  peripheral : ℚ
  indirect : ℚ
  distraction : ℚ
deriving DecidableEq

/-- All-zero stats, as initialized by the constructor and by
`start_session`. -/
def zeroStats : SessionStatsR := ⟨0, 0, 0, 0⟩

/-- `session_stats[c] += d`; `none` models the `KeyError` raised when `c`
is not one of the four keys. -/
def statsAdd (s : SessionStatsR) (c : String) (d : ℚ) : Option SessionStatsR :=
  if c = "DIRECT" then some { s with direct := s.direct + d }
  else if c = "PERIPHERAL" then some { s with peripheral := s.peripheral + d }
  else if c = "INDIRECT" then some { s with indirect := s.indirect + d }
  else if c = "DISTRACTION" then some { s with distraction := s.distraction + d }
  else none

/-- `sum(session_stats.values())`. -/
def sumStats (s : SessionStatsR) : ℚ :=
  s.direct + s.peripheral + s.indirect + s.distraction

/-- The duration a closed activity contributes (its `duration`, read as
`0` while still `None`). -/
def durQ (a : ActivityR) : ℚ := a.duration.getD 0

/-- Sum of the durations of a list of activities. -/
def sumDur (l : List ActivityR) : ℚ := (l.map durQ).sum

/-- Appending to the `deque(maxlen=50)` of recent activities: the oldest
entries are evicted beyond 50. -/
def pushRecent (l : List ActivityR) (a : ActivityR) : List ActivityR :=
  let l2 := l ++ [a]
  l2.drop (l2.length - 50)

/-- The observation record handed to `process_window_change` (`pid` is
never read there). -/
structure WindowInfo where
  title : String
  process : String
deriving DecidableEq

/-- State of an `EnhancedWindowMonitor` (src/v3.py lines 368-387),
restricted to the fields the session logic reads and writes. -/
structure MonitorState where
  currentSession : Option FocusSessionR
  currentActivity : Option ActivityR
  activityStart : Option ℚ
  sessionStats : SessionStatsR
  recentActivities : List ActivityR
  contextSwitches : Nat
  lastClassification : Option String
deriving DecidableEq

/-- The monitor's `__init__` state. -/
def initState : MonitorState :=
  { currentSession := none, currentActivity := none, activityStart := none,
    sessionStats := zeroStats, recentActivities := [], contextSwitches := 0,
    lastClassification := none }

/-- The `Activity` opened for a fresh observation (src/v3.py lines
524-540): domain-derived url and tags, `duration = None`. -/
def newActivity (now : ℚ) (w : WindowInfo) (cls : ℚ × String) : ActivityR :=
  let domain := extractDomainV3 w.title w.process
  { timestamp := now, title := w.title, process := w.process,
    url := some domain, classification := cls.2, relevanceScore := cls.1,
    duration := none, tags := [domain] }

/-- v3's context-switch update (src/v3.py lines 544-547): increment only
when a previous classification exists, differs, and the new one is
DISTRACTION. -/
def nextSwitches (lastC : Option String) (c : String) (n : Nat) : Nat :=
  match lastC with
  | some lc => if lc ≠ c ∧ c = "DISTRACTION" then n + 1 else n
  | none => n

/-- Model of `EnhancedWindowMonitor.process_window_change` (src/v3.py
lines 511-551).  No-op without an active session.  If an activity is open
(`current_activity` and `activity_start_time` both set) it is closed:
`duration = now - activity_start_time` is written into it, added to
`session_stats` under its classification (`none` on `KeyError`), and the
closed record is appended to the session's activity list and the recent
deque.  A new activity is then opened at `now`. -/
def processWindowChange (st : MonitorState) (now : ℚ) (w : WindowInfo)
    (cls : ℚ × String) : Option MonitorState :=
  match st.currentSession with
  | none => some st
  | some sess =>
    let closed : Option (SessionStatsR × FocusSessionR × List ActivityR) :=
      match st.currentActivity, st.activityStart with
      | some a, some t0 =>
        let d := now - t0
        let a2 := { a with duration := some d }
        match statsAdd st.sessionStats a.classification d with
        | none => none
        | some stats2 =>
          some (stats2, { sess with activities := sess.activities ++ [a2] },
            pushRecent st.recentActivities a2)
      | _, _ => some (st.sessionStats, sess, st.recentActivities)
    match closed with
    | none => none
    | some (stats2, sess2, recent2) =>
      some { currentSession := some sess2,
             currentActivity := some (newActivity now w cls),
             activityStart := some now,
             sessionStats := stats2,
             recentActivities := recent2,
             contextSwitches := nextSwitches st.lastClassification cls.2 st.contextSwitches,
             lastClassification := some cls.2 }

/-- Model of `EnhancedWindowMonitor.end_session` (src/v3.py lines 409-426,
identical in src/v4.py lines 391-408).  No-op without an active session.
An open activity has its duration computed and added to `session_stats`,
but is NOT appended to the session's activity list or the recent deque;
`current_activity` and `activity_start_time` are left in place.  The
session, with `end_time = now`, is handed to the persistence sink (the
second component of the result). -/
def endSession (st : MonitorState) (now : ℚ) :
    Option (MonitorState × Option FocusSessionR) :=
  match st.currentSession with
  | none => some (st, none)
  | some sess =>
    let closed : Option (SessionStatsR × Option ActivityR) :=
      match st.currentActivity, st.activityStart with
      | some a, some t0 =>
        let d := now - t0
        match statsAdd st.sessionStats a.classification d with
        | none => none
        | some stats2 => some (stats2, some { a with duration := some d })
      | _, _ => some (st.sessionStats, st.currentActivity)
    match closed with
    | none => none
    | some (stats2, act2) =>
      let sess2 := { sess with endTime := some now }
      some ({ st with currentSession := none, currentActivity := act2,
                      sessionStats := stats2 }, some sess2)

/-- Model of `EnhancedWindowMonitor.start_session` (src/v3.py lines
389-407, identical in src/v4.py lines 371-389): an active session is
ended first (cascading persist); then a fresh session is installed, stats
are zeroed, the switch counter reset and the recent deque cleared.
`current_activity`, `activity_start_time` and `last_classification` are
NOT reset. -/
def startSession (st : MonitorState) (goal description : String) (now : ℚ) :
    Option (MonitorState × Option FocusSessionR) :=
  let ended :=
    match st.currentSession with
    | some _ => endSession st now
    | none => some (st, none)
  match ended with
  | none => none
  | some (st1, persisted) =>
    let fresh : FocusSessionR :=
      { goal := goal, description := description, startTime := now,
        endTime := none, activities := [] }
    some ({ st1 with
        currentSession := some fresh,
        sessionStats := zeroStats,
        contextSwitches := 0,
        recentActivities := [] }, persisted)

/-! ### Focus score (`display_session_summary`) -/

/-- Model of the focus-score computation (src/v3.py lines 626-632,
identical in src/v4.py lines 587-593): evaluated only when the session's
total duration is positive; `direct` and `peripheral` are the accumulated
DIRECT and PERIPHERAL stats, `total` the session's wall-clock duration. -/
def focusScore (direct peripheral total : ℚ) : ℚ :=
  min ((direct * 1 + peripheral * 0.7) / total * 10) 10

/-- A classifier result is well-formed when its label is in the four-way
taxonomy and its score lies in `[0, 1]`. -/
def goodPair (p : ℚ × String) : Prop :=
  p.2 ∈ validClassifications ∧ 0 ≤ p.1 ∧ p.1 ≤ 1

/-- Every entry of a classification cache is well-formed. -/
def cacheWF (cache : List (String × (ℚ × String))) : Prop :=
  ∀ kv ∈ cache, goodPair kv.2

/-- A session is attributed from time `tFirst` when, whenever an activity
is open, the closed durations recorded so far span exactly the interval
from `tFirst` to the open activity's start. -/
def attributedFrom (st : MonitorState) (tFirst : ℚ) : Prop :=
  ∀ sess tl, st.currentSession = some sess → st.activityStart = some tl →
    sumDur sess.activities = tl - tFirst

/-! ### Concrete states used to instantiate the theorems -/

/-- The session produced by `start_session("g", "d")` at time `0`. -/
def exFresh : FocusSessionR :=
  { goal := "g", description := "d", startTime := 0, endTime := none,
    activities := [] }

/-- The monitor state right after `start_session("g", "d")` at time `0`
from the initial state. -/
def exStarted : MonitorState :=
  { currentSession := some exFresh, currentActivity := none,
    activityStart := none, sessionStats := zeroStats, recentActivities := [],
    contextSwitches := 0, lastClassification := none }

/-- A DIRECT activity opened at time `1`. -/
def exAct : ActivityR :=
  { timestamp := 1, title := "t", process := "p", url := none,
    classification := "DIRECT", relevanceScore := 0.9, duration := none,
    tags := [] }

/-- A monitor state with an active session and `exAct` open since time `1`. -/
def exOpen : MonitorState :=
  { currentSession := some exFresh, currentActivity := some exAct,
    activityStart := some 1, sessionStats := zeroStats,
    recentActivities := [], contextSwitches := 0,
    lastClassification := some "DIRECT" }

/-- A closed copy of `exAct` with duration `2`. -/
def exClosed : ActivityR := { exAct with duration := some 2 }

/-- A session holding the single closed activity `exClosed`. -/
def exSessClosed : FocusSessionR := { exFresh with activities := [exClosed] }

/-- A monitor state in mid-session: one closed activity recorded and a
new activity open since time `5`. -/
def exMid : MonitorState :=
  { currentSession := some exSessClosed, currentActivity := some exAct,
    activityStart := some 5, sessionStats := ⟨2, 0, 0, 0⟩,
    recentActivities := [exClosed], contextSwitches := 0,
    lastClassification := some "DIRECT" }

/-! ### Helper lemmas -/

theorem iteNonneg {c : Prop} [Decidable c] {a b : ℚ} (ha : 0 ≤ a) (hb : 0 ≤ b) :
    0 ≤ if c then a else b := by
  split <;> assumption

theorem lookupA_mem {α : Type} (cache : List (String × α)) (key : String) (v : α)
    (h : lookupA cache key = some v) : ∃ k, (k, v) ∈ cache := by
  induction cache with
  | nil => simp [lookupA] at h
  | cons kv rest ih =>
    obtain ⟨k0, v0⟩ := kv
    unfold lookupA at h
    split_ifs at h with hk
    · injection h with h2
      exact ⟨k0, h2 ▸ List.mem_cons_self _ _⟩
    · obtain ⟨k, hmem⟩ := ih h
      exact ⟨k, List.mem_cons_of_mem _ hmem⟩

theorem eduTableV3_nonneg : ∀ kv ∈ educationalDomainsV3, (0:ℚ) ≤ kv.2 := by
  intro kv hkv
  fin_cases hkv <;> norm_num

theorem distTableV3_nonneg : ∀ kv ∈ distractionDomainsV3, (0:ℚ) ≤ kv.2 := by
  intro kv hkv
  fin_cases hkv <;> norm_num

theorem eduScoreV3_nonneg (domain : String) : 0 ≤ eduScoreV3 domain := by
  unfold eduScoreV3
  cases h : lookupA educationalDomainsV3 domain with
  | none => norm_num
  | some v =>
    obtain ⟨k, hk⟩ := lookupA_mem _ _ _ h
    simpa using eduTableV3_nonneg (k, v) hk

theorem distAdjustV3_nonneg (domain : String) (b : ℚ) (hb : 0 ≤ b) :
    0 ≤ distAdjustV3 domain b := by
  unfold distAdjustV3
  cases h : lookupA distractionDomainsV3 domain with
  | none => exact hb
  | some v =>
    obtain ⟨k, hk⟩ := lookupA_mem _ _ _ h
    exact le_min hb (by simpa using distTableV3_nonneg (k, v) hk)

theorem baseScoreV3_nonneg (titleL domain : String) : 0 ≤ baseScoreV3 titleL domain := by
  unfold baseScoreV3
  dsimp only
  apply distAdjustV3_nonneg
  refine iteNonneg ?_ (eduScoreV3_nonneg domain)
  exact le_trans (by norm_num : (0:ℚ) ≤ 0.9) (le_max_right _ _)

theorem contentScoreV3_nonneg (titleL descriptionL domain : String)
    (keywords : List String) :
    0 ≤ contentScoreV3 titleL descriptionL domain keywords := by
  unfold contentScoreV3
  dsimp only
  refine iteNonneg (add_nonneg (iteNonneg ?_ ?_) (by norm_num))
    (iteNonneg ?_ ?_) <;> positivity

theorem rb3_score_bounds (title goal description domain : String)
    (keywords : List String) :
    0 ≤ (ruleBasedClassifyV3 title goal description domain keywords).1 ∧
      (ruleBasedClassifyV3 title goal description domain keywords).1 ≤ 1 := by
  unfold ruleBasedClassifyV3
  dsimp only
  refine ⟨le_min ?_ (by norm_num), min_le_right _ _⟩
  exact div_nonneg (add_nonneg (baseScoreV3_nonneg _ _) (contentScoreV3_nonneg _ _ _ _))
    (by norm_num : (0:ℚ) ≤ 2)

theorem rb3_snd_bands (title goal description domain : String)
    (keywords : List String) :
    (ruleBasedClassifyV3 title goal description domain keywords).2 =
      classifyBands (ruleBasedClassifyV3 title goal description domain keywords).1 := rfl

theorem rb4_score_bounds (title goal description domain : String)
    (keywords : List String) :
    0 ≤ (ruleBasedClassifyV4 title goal description domain keywords).1 ∧
      (ruleBasedClassifyV4 title goal description domain keywords).1 ≤ 1 := by
  unfold ruleBasedClassifyV4
  dsimp only
  refine ⟨le_min ?_ (by norm_num), min_le_right _ _⟩
  split_ifs
  · exact le_trans (by norm_num : (0:ℚ) ≤ 0.05) (le_max_left _ _)
  · exact le_trans (by norm_num : (0:ℚ) ≤ 0.05) (le_max_left _ _)
  · positivity
  · positivity

theorem rb4_snd_bands (title goal description domain : String)
    (keywords : List String) :
    (ruleBasedClassifyV4 title goal description domain keywords).2 =
      classifyBands (ruleBasedClassifyV4 title goal description domain keywords).1 := rfl

theorem classifyBands_mem (s : ℚ) : classifyBands s ∈ validClassifications := by
  unfold classifyBands validClassifications
  split_ifs <;> simp

theorem rb4_goodPair (title goal description domain : String)
    (keywords : List String) :
    goodPair (ruleBasedClassifyV4 title goal description domain keywords) := by
  refine ⟨?_, rb4_score_bounds title goal description domain keywords⟩
  rw [rb4_snd_bands]
  exact classifyBands_mem _

theorem sumStats_statsAdd (s s2 : SessionStatsR) (c : String) (d : ℚ)
    (h : statsAdd s c d = some s2) : sumStats s2 = sumStats s + d := by
  unfold statsAdd at h
  split_ifs at h <;> · injection h with h; subst h; simp [sumStats]; ring

theorem sumDur_append (l : List ActivityR) (a : ActivityR) :
    sumDur (l ++ [a]) = sumDur l + durQ a := by
  simp [sumDur]

theorem mem_dedupGo (w : String) (l seen : List String)
    (h : w ∈ dedupGo l seen) : w ∈ l := by
  induction l generalizing seen with
  | nil => simp [dedupGo] at h
  | cons x xs ih =>
    unfold dedupGo at h
    split_ifs at h
    · exact List.mem_cons_of_mem _ (ih _ h)
    · rcases List.mem_cons.mp h with h | h
      · exact h ▸ List.mem_cons_self _ _
      · exact List.mem_cons_of_mem _ (ih _ h)

theorem pwcClose (st : MonitorState) (now : ℚ) (w : WindowInfo) (cls : ℚ × String)
    (sess : FocusSessionR) (a : ActivityR) (t0 : ℚ) (stats2 : SessionStatsR)
    (h1 : st.currentSession = some sess) (h2 : st.currentActivity = some a)
    (h3 : st.activityStart = some t0)
    (h4 : statsAdd st.sessionStats a.classification (now - t0) = some stats2) :
    processWindowChange st now w cls = some
      { currentSession :=
          some { sess with activities := sess.activities ++ [{ a with duration := some (now - t0) }] },
        currentActivity := some (newActivity now w cls),
        activityStart := some now,
        sessionStats := stats2,
        recentActivities := pushRecent st.recentActivities { a with duration := some (now - t0) },
        contextSwitches := nextSwitches st.lastClassification cls.2 st.contextSwitches,
        lastClassification := some cls.2 } := by
  simp only [processWindowChange, h1, h2, h3, h4]

theorem pwcNoClose (st : MonitorState) (now : ℚ) (w : WindowInfo) (cls : ℚ × String)
    (sess : FocusSessionR)
    (h1 : st.currentSession = some sess) (h2 : st.currentActivity = none) :
    processWindowChange st now w cls = some
      { currentSession := some sess,
        currentActivity := some (newActivity now w cls),
        activityStart := some now,
        sessionStats := st.sessionStats,
        recentActivities := st.recentActivities,
        contextSwitches := nextSwitches st.lastClassification cls.2 st.contextSwitches,
        lastClassification := some cls.2 } := by
  simp only [processWindowChange, h1, h2]

theorem endSessionClose (st : MonitorState) (now : ℚ)
    (sess : FocusSessionR) (a : ActivityR) (t0 : ℚ) (stats2 : SessionStatsR)
    (h1 : st.currentSession = some sess) (h2 : st.currentActivity = some a)
    (h3 : st.activityStart = some t0)
    (h4 : statsAdd st.sessionStats a.classification (now - t0) = some stats2) :
    endSession st now = some
      ({ st with currentSession := none,
                 currentActivity := some { a with duration := some (now - t0) },
                 sessionStats := stats2 },
       some { sess with endTime := some now }) := by
  simp only [endSession, h1, h2, h3, h4]

theorem startSessionStats (st : MonitorState) (goal description : String) (now : ℚ)
    (st2 : MonitorState) (persisted : Option FocusSessionR)
    (h : startSession st goal description now = some (st2, persisted)) :
    st2.currentSession =
      some { goal := goal, description := description, startTime := now,
             endTime := none, activities := [] } ∧
    st2.sessionStats = zeroStats := by
  unfold startSession at h
  cases hcs : st.currentSession with
  | none =>
    simp only [hcs] at h
    injection h with h
    injection h with hA hB
    subst hA
    exact ⟨rfl, rfl⟩
  | some sess =>
    simp only [hcs] at h
    cases he : endSession st now with
    | none => simp [he] at h
    | some p =>
      simp only [he] at h
      injection h with h
      injection h with hA hB
      subst hA
      exact ⟨rfl, rfl⟩

theorem isPrefixL_ne_nil (needle hay : List Char) (hn : needle ≠ [])
    (h : isPrefixL needle hay = true) : hay ≠ [] := by
  cases needle with
  | nil => exact absurd rfl hn
  | cons a as =>
    cases hay with
    | nil => simp [isPrefixL] at h
    | cons b bs => simp

theorem findComBack_spec (l : List Char) (k m : Nat)
    (h : findComBack l k = some m) : 1 ≤ m ∧ dotComAt l m = true := by
  induction k with
  | zero => simp [findComBack] at h
  | succ k ih =>
    unfold findComBack at h
    split_ifs at h with hd
    · injection h with h
      subst h
      exact ⟨Nat.succ_le_succ (Nat.zero_le k), hd⟩
    · exact ih h

theorem capCom_ne_nil (rest cap : List Char) (h : capCom rest = some cap) :
    cap ≠ [] := by
  unfold capCom at h
  cases hf : findComBack rest (rest.takeWhile (fun c => c ≠ '-')).length with
  | none => rw [hf] at h; simp at h
  | some m =>
    rw [hf] at h
    injection h with h
    subst h
    obtain ⟨hm, hd⟩ := findComBack_spec _ _ _ hf
    have hrest : rest ≠ [] := by
      intro hnil
      subst hnil
      simp [dotComAt, isPrefixL] at hd
    simp [List.take_eq_nil_iff, hrest]

theorem scanStepCom_ne_nil (c : Char) (tl cap : List Char)
    (h : scanStepCom c tl = some cap) : cap ≠ [] := by
  unfold scanStepCom at h
  split_ifs at h
  exact capCom_ne_nil _ _ h

theorem scanCom_ne_nil (l cap : List Char) (h : scanCom l = some cap) :
    cap ≠ [] := by
  induction l with
  | nil => simp [scanCom] at h
  | cons c tl ih =>
    unfold scanCom at h
    cases hs : scanStepCom c tl with
    | none => rw [hs] at h; exact ih h
    | some cap2 =>
      rw [hs] at h
      injection h with h
      exact h ▸ scanStepCom_ne_nil _ _ _ hs

theorem backTok_ne_nil (rest : List Char) (k : Nat) (cap : List Char)
    (h : backTok rest k = some cap) : cap ≠ [] := by
  induction k with
  | zero => simp [backTok] at h
  | succ m ih =>
    unfold backTok at h
    split_ifs at h with hc ht
    · injection h with h
      subst h
      have hrest : rest ≠ [] := by
        intro hnil
        subst hnil
        simp at hc
      simp [List.take_eq_nil_iff, hrest]
    all_goals exact ih h

theorem capTok_ne_nil (rest cap : List Char) (h : capTok rest = some cap) :
    cap ≠ [] :=
  backTok_ne_nil _ _ _ h

theorem scanTok_ne_nil (l cap : List Char) (h : scanTok l = some cap) :
    cap ≠ [] := by
  induction l with
  | nil => simp [scanTok] at h
  | cons c tl ih =>
    unfold scanTok at h
    cases hs : capTok (c :: tl) with
    | none => rw [hs] at h; exact ih h
    | some cap2 =>
      rw [hs] at h
      injection h with h
      exact h ▸ capTok_ne_nil _ _ hs

theorem stringMk_ne_empty (l : List Char) (h : l ≠ []) : String.mk l ≠ "" := by
  intro he
  rw [show ("" : String) = ⟨[]⟩ from rfl] at he
  exact h (by injection he)

theorem lowerStr_ne_empty (s : String) (h : s ≠ "") : lowerStr s ≠ "" := by
  apply stringMk_ne_empty
  intro hnil
  apply h
  obtain ⟨data⟩ := s
  have hd : data = [] := List.map_eq_nil_iff.mp hnil
  subst hd
  rfl

theorem pwcNoStart (st : MonitorState) (now : ℚ) (w : WindowInfo) (cls : ℚ × String)
    (sess : FocusSessionR)
    (h1 : st.currentSession = some sess) (h2 : st.activityStart = none) :
    processWindowChange st now w cls = some
      { currentSession := some sess,
        currentActivity := some (newActivity now w cls),
        activityStart := some now,
        sessionStats := st.sessionStats,
        recentActivities := st.recentActivities,
        contextSwitches := nextSwitches st.lastClassification cls.2 st.contextSwitches,
        lastClassification := some cls.2 } := by
  cases hca : st.currentActivity <;>
    simp only [processWindowChange, h1, h2, hca]

theorem containsValid (c : String) (h : validClassifications.contains c = true) :
    c = "DIRECT" ∨ c = "PERIPHERAL" ∨ c = "INDIRECT" ∨ c = "DISTRACTION" := by
  simpa [validClassifications, List.contains, or_assoc] using h

/-! ### Claims -/

/-- C5: whenever the session's total duration is positive, the focus score
equals `min(10.0, ((DIRECT * 1.0) + (PERIPHERAL * 0.7)) / total * 10)`,
always lies in `[0, 10]`, and equals `0` when the accumulated DIRECT and
PERIPHERAL durations are both `0`.  The hypotheses record that the inputs
are accumulated durations (nonnegative) of a session with positive total
duration, the only situation in which `display_session_summary` computes
the score. -/
theorem C5_focus_score_formula (direct peripheral total : ℚ)
    (hd : 0 ≤ direct) (hp : 0 ≤ peripheral) (ht : 0 < total) :
    focusScore direct peripheral total
        = min 10 ((direct * 1 + peripheral * 0.7) / total * 10) ∧
      0 ≤ focusScore direct peripheral total ∧
      focusScore direct peripheral total ≤ 10 ∧
      (direct = 0 → peripheral = 0 → focusScore direct peripheral total = 0) := by
  unfold focusScore
  refine ⟨min_comm _ _, ?_, min_le_right _ _, ?_⟩
  · refine le_min ?_ (by norm_num)
    exact mul_nonneg
      (div_nonneg
        (add_nonneg (mul_nonneg hd (by norm_num)) (mul_nonneg hp (by norm_num)))
        ht.le)
      (by norm_num)
  · intro h1 h2
    rw [h1, h2]
    norm_num

/-- Witness for C5 at `direct = 2`, `peripheral = 1`, `total = 4`. -/
theorem C5_focus_score_formula_witness :
    0 ≤ focusScore 2 1 4 ∧ focusScore 2 1 4 ≤ 10 :=
  ⟨(C5_focus_score_formula 2 1 4 (by norm_num) (by norm_num) (by norm_num)).2.1,
   (C5_focus_score_formula 2 1 4 (by norm_num) (by norm_num) (by norm_num)).2.2.1⟩

/-- C6: for every input, the rule-based classifier (both the v3 and the v4
variant) returns a score in `[0, 1]` together with the classification the
fixed bands assign to that score. -/
theorem C6_rule_based_clamp_and_bands (title goal description domain : String)
    (keywords : List String) :
    (0 ≤ (ruleBasedClassifyV3 title goal description domain keywords).1 ∧
      (ruleBasedClassifyV3 title goal description domain keywords).1 ≤ 1 ∧
      (ruleBasedClassifyV3 title goal description domain keywords).2 =
        classifyBands (ruleBasedClassifyV3 title goal description domain keywords).1) ∧
    (0 ≤ (ruleBasedClassifyV4 title goal description domain keywords).1 ∧
      (ruleBasedClassifyV4 title goal description domain keywords).1 ≤ 1 ∧
      (ruleBasedClassifyV4 title goal description domain keywords).2 =
        classifyBands (ruleBasedClassifyV4 title goal description domain keywords).1) :=
  ⟨⟨(rb3_score_bounds title goal description domain keywords).1,
    (rb3_score_bounds title goal description domain keywords).2,
    rb3_snd_bands title goal description domain keywords⟩,
   ⟨(rb4_score_bounds title goal description domain keywords).1,
    (rb4_score_bounds title goal description domain keywords).2,
    rb4_snd_bands title goal description domain keywords⟩⟩

/-- C7: mapping each of the four labels to its fixed score and applying
the classification bands to that score yields back the original label. -/
theorem C7_fixed_scores_roundtrip :
    classifyBands (scoreFromClassification "DIRECT") = "DIRECT" ∧
    classifyBands (scoreFromClassification "PERIPHERAL") = "PERIPHERAL" ∧
    classifyBands (scoreFromClassification "INDIRECT") = "INDIRECT" ∧
    classifyBands (scoreFromClassification "DISTRACTION") = "DISTRACTION" := by
  refine ⟨?_, ?_, ?_, ?_⟩
  · rw [show scoreFromClassification "DIRECT" = 0.9 from rfl]
    norm_num [classifyBands]
  · rw [show scoreFromClassification "PERIPHERAL" = 0.7 from rfl]
    norm_num [classifyBands]
  · rw [show scoreFromClassification "INDIRECT" = 0.4 from rfl]
    norm_num [classifyBands]
  · rw [show scoreFromClassification "DISTRACTION" = 0.1 from rfl]
    norm_num [classifyBands]

/-- C9: when the keyword backend fails (any exception path) and the cache
has no entry for the pair, keyword derivation returns the deduplicated
`\w+` tokens of the lowered goal and description, capped at 50 entries;
the function is total, so no exception reaches the caller. -/
theorem C9_keyword_fallback (cache : List (String × List String))
    (goal description : String)
    (hmiss : lookupA cache (kwCacheKey goal description) = none) :
    (generateKeywords cache goal description .failure).1 =
        (dedupFirst (pyFindallWords (lowerStr goal ++ " " ++ lowerStr description))).take 50 ∧
      (generateKeywords cache goal description .failure).1.length ≤ 50 ∧
      ∀ w ∈ (generateKeywords cache goal description .failure).1,
        w ∈ pyFindallWords (lowerStr goal ++ " " ++ lowerStr description) := by
  have hval : (generateKeywords cache goal description .failure).1 =
      (dedupFirst (pyFindallWords (lowerStr goal ++ " " ++ lowerStr description))).take 50 := by
    simp only [generateKeywords, hmiss]
  refine ⟨hval, ?_, ?_⟩
  · rw [hval, List.length_take]
    exact min_le_left _ _
  · intro w hw
    rw [hval] at hw
    exact mem_dedupGo _ _ _ (List.take_subset _ _ hw)

/-- Witness for C9 on an empty cache with goal "Deep Learning" and
description "studying CNNs". -/
theorem C9_keyword_fallback_witness :
    (generateKeywords [] "Deep Learning" "studying CNNs" .failure).1 =
        (dedupFirst (pyFindallWords
          (lowerStr "Deep Learning" ++ " " ++ lowerStr "studying CNNs"))).take 50 ∧
      (generateKeywords [] "Deep Learning" "studying CNNs" .failure).1.length ≤ 50 :=
  ⟨(C9_keyword_fallback [] "Deep Learning" "studying CNNs" rfl).1,
   (C9_keyword_fallback [] "Deep Learning" "studying CNNs" rfl).2.1⟩

/-- C10: the keyword cache key is the md5 of `goal + "_" + description`,
which coincides for the distinct pairs `("a_b", "c")` and `("a", "b_c")`;
after the first pair's call populates the cache, the second pair's call
returns the first pair's cached keyword set (here 20 copies of "k")
instead of the fallback keywords derived from its own inputs. -/
theorem C10_cache_key_collision :
    kwCacheKey "a_b" "c" = kwCacheKey "a" "b_c" ∧
    (generateKeywords [] "a_b" "c" (.array (List.replicate 20 "k"))).1 =
       List.replicate 20 "k" ∧
    (generateKeywords (generateKeywords [] "a_b" "c" (.array (List.replicate 20 "k"))).2
        "a" "b_c" .failure).1 = List.replicate 20 "k" ∧
    (generateKeywords (generateKeywords [] "a_b" "c" (.array (List.replicate 20 "k"))).2
        "a" "b_c" .failure).1 ≠
      (dedupFirst (pyFindallWords (lowerStr "a" ++ " " ++ lowerStr "b_c"))).take 50 := by
  refine ⟨rfl, by decide, by decide, by decide⟩

/-- C8 counterexample: on the input pair `("", "")` both versions of
`extract_domain` return the empty string, so the claim that every input
pair yields a non-empty label is false. -/
theorem C8_counterexample :
    extractDomainV3 "" "" = "" ∧ extractDomainV4 "" "" = "" := by
  exact ⟨rfl, rfl⟩

/-- C8 (amended): `extract_domain` is a pure function of its two inputs
(determinism is intrinsic to the model), and it returns a non-empty label
whenever the process name is non-empty; only an empty process name with no
matching title rule produces the empty label. -/
theorem C8_extract_domain_nonempty :
    (∀ title process : String, process ≠ "" → extractDomainV3 title process ≠ "") ∧
    (∀ title process : String, process ≠ "" → extractDomainV4 title process ≠ "") := by
  constructor
  · intro title process hp
    unfold extractDomainV3
    dsimp only
    split
    · split <;> decide
    · cases hsc : scanCom (lowerStr title).toList with
      | some cap =>
        simp only [hsc]
        exact stringMk_ne_empty _ (scanCom_ne_nil _ _ hsc)
      | none =>
        simp only [hsc]
        cases hst : scanTok (lowerStr title).toList with
        | some cap =>
          simp only [hst]
          exact stringMk_ne_empty _ (scanTok_ne_nil _ _ hst)
        | none =>
          simp only [hst]
          split_ifs <;> first
            | decide
            | exact lowerStr_ne_empty _ hp
  · intro title process hp
    unfold extractDomainV4
    dsimp only
    split
    · decide
    · cases hsc : scanCom (lowerStr title).toList with
      | some cap =>
        simp only [hsc]
        exact stringMk_ne_empty _ (scanCom_ne_nil _ _ hsc)
      | none =>
        simp only [hsc]
        cases hst : scanTok (lowerStr title).toList with
        | some cap =>
          simp only [hst]
          exact stringMk_ne_empty _ (scanTok_ne_nil _ _ hst)
        | none =>
          simp only [hst]
          split_ifs <;> first
            | decide
            | exact lowerStr_ne_empty _ hp

/-- Witness for C8 (amended) at `("t", "p")`. -/
theorem C8_extract_domain_nonempty_witness :
    extractDomainV3 "t" "p" ≠ "" ∧ extractDomainV4 "t" "p" ≠ "" :=
  ⟨C8_extract_domain_nonempty.1 "t" "p" (by decide),
   C8_extract_domain_nonempty.2 "t" "p" (by decide)⟩

/-- C3 counterexample: v3's `_ai_classify` does not validate a well-formed
JSON response; a response carrying `relevance_score = 2.0` and
`classification = "FOO"` is returned (and cached) unchanged, so the label
is outside the four-way taxonomy and the score is outside `[0, 1]`. -/
theorem C3_counterexample :
    (aiClassifyV3 [] "t" "g" "d" "dom" [] (.json 2 "FOO")).1 = (2, "FOO") ∧
      "FOO" ∉ validClassifications ∧ ¬((2 : ℚ) ≤ 1) := by
  refine ⟨rfl, by decide, by norm_num⟩

theorem validLabelGoodPair (c : String)
    (h : c = "DIRECT" ∨ c = "PERIPHERAL" ∨ c = "INDIRECT" ∨ c = "DISTRACTION") :
    goodPair (scoreFromClassification c, c) := by
  rcases h with h | h | h | h <;> subst h <;> refine ⟨by decide, ?_⟩
  · rw [show scoreFromClassification "DIRECT" = 0.9 from rfl]
    constructor <;> norm_num
  · rw [show scoreFromClassification "PERIPHERAL" = 0.7 from rfl]
    constructor <;> norm_num
  · rw [show scoreFromClassification "INDIRECT" = 0.4 from rfl]
    constructor <;> norm_num
  · rw [show scoreFromClassification "DISTRACTION" = 0.1 from rfl]
    constructor <;> norm_num

/-- C3 (amended): v4's `_llm_classify` treats out-of-taxonomy labels as
failures and falls back to rule-based classification, so for every
backend response (given a well-formed cache) it returns a label in the
four-way taxonomy and a score in `[0, 1]`, and the updated cache stays
well-formed; v3's `_ai_classify` falls back only on failures, and on a
cache miss the failure path coincides with rule-based classification. -/
theorem C3_v4_taxonomy_v3_fallback :
    (∀ (cache : List (String × (ℚ × String))) (title goal description domain : String)
        (keywords : List String) (resp : LlmResponse), cacheWF cache →
      goodPair (llmClassifyV4 cache title goal description domain keywords resp).1 ∧
        cacheWF (llmClassifyV4 cache title goal description domain keywords resp).2) ∧
    (∀ (cache : List (String × (ℚ × String))) (title goal description domain : String)
        (keywords : List String),
      lookupA cache (clsCacheKey title goal description domain) = none →
      (aiClassifyV3 cache title goal description domain keywords .failure).1 =
        ruleBasedClassifyV3 title goal description domain keywords) := by
  constructor
  · intro cache title goal description domain keywords resp hwf
    cases hl : lookupA cache (clsCacheKey title goal description domain) with
    | some v =>
      simp only [llmClassifyV4, hl]
      obtain ⟨k, hk⟩ := lookupA_mem _ _ _ hl
      exact ⟨hwf (k, v) hk, hwf⟩
    | none =>
      cases resp with
      | failure =>
        simp only [llmClassifyV4, hl]
        exact ⟨rb4_goodPair title goal description domain keywords, hwf⟩
      | label raw =>
        simp only [llmClassifyV4, hl]
        by_cases hv : validClassifications.contains (upperStr (stripStr raw)) = true
        · rw [if_pos hv]
          have hgood : goodPair
              (scoreFromClassification (upperStr (stripStr raw)),
                upperStr (stripStr raw)) :=
            validLabelGoodPair _ (containsValid _ hv)
          refine ⟨hgood, ?_⟩
          intro kv hkv
          rcases List.mem_cons.mp hkv with h | h
          · rw [h]
            exact hgood
          · exact hwf kv h
        · rw [if_neg hv]
          exact ⟨rb4_goodPair title goal description domain keywords, hwf⟩
  · intro cache title goal description domain keywords hmiss
    simp only [aiClassifyV3, hmiss]

/-- Witness for C3 (amended): an out-of-taxonomy label on an empty cache
yields a well-formed result, and a v3 failure on an empty cache yields
the rule-based result. -/
theorem C3_v4_taxonomy_v3_fallback_witness :
    goodPair (llmClassifyV4 [] "t" "g" "d" "dom" [] (.label "BANANA")).1 ∧
      (aiClassifyV3 [] "t" "g" "d" "dom" [] .failure).1 =
        ruleBasedClassifyV3 "t" "g" "d" "dom" [] :=
  ⟨(C3_v4_taxonomy_v3_fallback.1 [] "t" "g" "d" "dom" [] (.label "BANANA")
      (by intro kv hkv; simp at hkv)).1,
   C3_v4_taxonomy_v3_fallback.2 [] "t" "g" "d" "dom" [] rfl⟩

/-- C2 counterexample: `end_session` at time `3` on a state whose activity
has been open since time `1` persists a session whose activity list is
still empty and leaves the recent-activity window unchanged — the closed
final activity is appended to neither, contradicting the claim. -/
theorem C2_counterexample :
    exOpen.currentActivity.isSome = true ∧
      (endSession exOpen 3).map
          (fun q => (q.2.map fun s => s.activities, q.1.recentActivities)) =
        some (some [], []) := by
  constructor
  · rfl
  · simp [endSession, exOpen, exFresh, exAct, statsAdd, zeroStats]

/-- C2 (amended): with an active session and an open activity,
`end_session` computes `duration = now - activity_start`, adds it to
SessionStats under the activity's classification, sets `end_time = now`
and hands the session to the persistence sink — but it does not append
the finalized activity to the session's activity list (the persisted
session carries exactly the previously closed activities) or to the
recent-activity window, and it leaves `current_activity` and
`activity_start_time` in place. -/
theorem C2_end_session_behavior (st : MonitorState) (now : ℚ)
    (sess : FocusSessionR) (a : ActivityR) (t0 : ℚ) (stats2 : SessionStatsR)
    (h1 : st.currentSession = some sess) (h2 : st.currentActivity = some a)
    (h3 : st.activityStart = some t0)
    (h4 : statsAdd st.sessionStats a.classification (now - t0) = some stats2) :
    endSession st now = some
      ({ st with currentSession := none,
                 currentActivity := some { a with duration := some (now - t0) },
                 sessionStats := stats2 },
       some { sess with endTime := some now }) :=
  endSessionClose st now sess a t0 stats2 h1 h2 h3 h4

/-- Witness for C2 (amended) on `exOpen` at time `3`. -/
theorem C2_end_session_behavior_witness :
    endSession exOpen 3 = some
      ({ exOpen with
          currentSession := none,
          currentActivity := some { exAct with duration := some (3 - 1) },
          sessionStats := ⟨0 + (3 - 1), 0, 0, 0⟩ },
       some { exFresh with endTime := some 3 }) :=
  C2_end_session_behavior exOpen 3 exFresh exAct 1 ⟨0 + (3 - 1), 0, 0, 0⟩
    rfl rfl rfl rfl

/-- C1 counterexample: start a session at time `0`, open one activity at
time `0`, then `end_session` at time `10`.  The closed activity's
duration `10` is added to SessionStats, but the persisted session's
activity list is empty: after `end_session` the two sides of the claimed
invariant are `10` and `0`. -/
theorem C1_counterexample :
    ((startSession initState "g" "d" 0).bind fun p =>
      (processWindowChange p.1 0 ⟨"t", "p"⟩ (0.9, "DIRECT")).bind fun st2 =>
      (endSession st2 10).map fun q =>
        (sumStats q.1.sessionStats, q.2.map fun s => sumDur s.activities))
      = some (10, some 0) ∧ (10 : ℚ) ≠ 0 := by
  constructor
  · simp [startSession, endSession, processWindowChange, initState, zeroStats,
      statsAdd, sumStats, sumDur, durQ, newActivity, nextSwitches, pushRecent]
  · norm_num

/-- C1 (amended): while a session is active the invariant
`sum(SessionStats) = sum of durations of the session's recorded
activities` holds — `start_session` establishes it and
`process_window_change` preserves it, adding each closed duration to both
sides — but `end_session` adds the final open activity's duration to
SessionStats without recording the activity in the session's list, so
after `end_session` the stats total exceeds the persisted activities'
total by exactly that duration. -/
theorem C1_stats_invariant :
    (∀ (st : MonitorState) (goal description : String) (now : ℚ)
        (st2 : MonitorState) (persisted : Option FocusSessionR)
        (sess : FocusSessionR),
      startSession st goal description now = some (st2, persisted) →
      st2.currentSession = some sess →
      sumStats st2.sessionStats = sumDur sess.activities) ∧
    (∀ (st : MonitorState) (now : ℚ) (w : WindowInfo) (cls : ℚ × String)
        (st2 : MonitorState) (sess sess2 : FocusSessionR),
      st.currentSession = some sess →
      sumStats st.sessionStats = sumDur sess.activities →
      processWindowChange st now w cls = some st2 →
      st2.currentSession = some sess2 →
      sumStats st2.sessionStats = sumDur sess2.activities) ∧
    (∀ (st : MonitorState) (now : ℚ) (sess : FocusSessionR) (a : ActivityR)
        (t0 : ℚ) (stats2 : SessionStatsR) (st2 : MonitorState)
        (persisted : FocusSessionR),
      st.currentSession = some sess →
      st.currentActivity = some a →
      st.activityStart = some t0 →
      statsAdd st.sessionStats a.classification (now - t0) = some stats2 →
      sumStats st.sessionStats = sumDur sess.activities →
      endSession st now = some (st2, some persisted) →
      sumStats st2.sessionStats = sumDur persisted.activities + (now - t0)) := by
  refine ⟨?_, ?_, ?_⟩
  · intro st goal description now st2 persisted sess hstart hcs
    obtain ⟨hcs2, hstats⟩ := startSessionStats st goal description now st2 persisted hstart
    rw [hcs] at hcs2
    injection hcs2 with hcs2
    rw [hstats, hcs2]
    norm_num [sumStats, zeroStats, sumDur]
  · intro st now w cls st2 sess sess2 h1 hsum hpwc hcs2
    cases hca : st.currentActivity with
    | none =>
      rw [pwcNoClose st now w cls sess h1 hca] at hpwc
      injection hpwc with hpwc
      subst hpwc
      have e1 : some sess = some sess2 := hcs2
      injection e1 with e1
      subst e1
      exact hsum
    | some a =>
      cases hast : st.activityStart with
      | none =>
        rw [pwcNoStart st now w cls sess h1 hast] at hpwc
        injection hpwc with hpwc
        subst hpwc
        have e1 : some sess = some sess2 := hcs2
        injection e1 with e1
        subst e1
        exact hsum
      | some t0 =>
        cases hsa : statsAdd st.sessionStats a.classification (now - t0) with
        | none =>
          simp only [processWindowChange, h1, hca, hast, hsa] at hpwc
          exact Option.noConfusion hpwc
        | some stats2 =>
          rw [pwcClose st now w cls sess a t0 stats2 h1 hca hast hsa] at hpwc
          injection hpwc with hpwc
          subst hpwc
          have e1 : some ({ sess with activities :=
              sess.activities ++ [{ a with duration := some (now - t0) }] })
              = some sess2 := hcs2
          injection e1 with e1
          subst e1
          show sumStats stats2 =
            sumDur (sess.activities ++ [{ a with duration := some (now - t0) }])
          rw [sumStats_statsAdd st.sessionStats stats2 a.classification (now - t0) hsa,
            sumDur_append, hsum]
          simp [durQ]
  · intro st now sess a t0 stats2 st2 persisted h1 h2 h3 h4 hsum hend
    rw [endSessionClose st now sess a t0 stats2 h1 h2 h3 h4] at hend
    injection hend with hend
    injection hend with hA hB
    subst hA
    injection hB with hB
    subst hB
    show sumStats stats2 = sumDur sess.activities + (now - t0)
    rw [sumStats_statsAdd st.sessionStats stats2 a.classification (now - t0) h4, hsum]

/-- Witness for C1 (amended): establishment after `start_session` from the
initial state, preservation through a `process_window_change` that closes
`exAct`, and the `end_session` discrepancy on `exOpen`. -/
theorem C1_stats_invariant_witness :
    (sumStats exStarted.sessionStats = sumDur exFresh.activities) ∧
    (sumStats ⟨0 + (5 - 1), 0, 0, 0⟩ =
      sumDur ({ exFresh with activities :=
        exFresh.activities ++ [{ exAct with duration := some (5 - 1) }] }).activities) ∧
    (sumStats ⟨0 + (3 - 1), 0, 0, 0⟩ =
      sumDur ({ exFresh with endTime := some 3 }).activities + (3 - 1)) :=
  ⟨C1_stats_invariant.1 initState "g" "d" 0 exStarted none exFresh rfl rfl,
   C1_stats_invariant.2.1 exOpen 5 ⟨"t2", "p2"⟩ (0.7, "PERIPHERAL") _ exFresh
     ({ exFresh with activities :=
        exFresh.activities ++ [{ exAct with duration := some (5 - 1) }] })
     rfl (by norm_num [sumStats, zeroStats, sumDur, exOpen, exFresh])
     (pwcClose exOpen 5 ⟨"t2", "p2"⟩ (0.7, "PERIPHERAL") exFresh exAct 1
       ⟨0 + (5 - 1), 0, 0, 0⟩ rfl rfl rfl rfl)
     rfl,
   C1_stats_invariant.2.2 exOpen 3 exFresh exAct 1 ⟨0 + (3 - 1), 0, 0, 0⟩
     ({ exOpen with
         currentSession := none,
         currentActivity := some { exAct with duration := some (3 - 1) },
         sessionStats := ⟨0 + (3 - 1), 0, 0, 0⟩ })
     ({ exFresh with endTime := some 3 })
     rfl rfl rfl rfl
     (by norm_num [sumStats, zeroStats, sumDur, exOpen, exFresh])
     rfl⟩

/-- C4 counterexample: a session started at time `0` whose first
observation is processed at time `3` and second at time `5`.  At time `9`
the closed durations sum to `2` and the open activity has been running
since `5`, so closed + open elapsed is `6`, while `now - start_time` is
`9`. -/
theorem C4_counterexample :
    ((startSession initState "g" "d" 0).bind fun p =>
      (processWindowChange p.1 3 ⟨"t1", "p1"⟩ (0.9, "DIRECT")).bind fun s2 =>
      (processWindowChange s2 5 ⟨"t2", "p2"⟩ (0.7, "PERIPHERAL")).map fun s3 =>
        (s3.currentSession.map fun sess => (sumDur sess.activities, sess.startTime),
         s3.activityStart))
      = some (some (2, 0), some 5) ∧ (2 : ℚ) + (9 - 5) ≠ 9 - 0 := by
  constructor
  · simp [startSession, processWindowChange, initState, zeroStats,
      statsAdd, sumStats, sumDur, durQ, newActivity, nextSwitches, pushRecent]
    norm_num
  · norm_num

/-- C4 (amended): the attributed time telescopes from the session's first
processed observation, not from `start_time`: processing a first
observation (empty activity list, no open activity) establishes
`attributedFrom` at that observation's time, every later
`process_window_change` preserves it, and under it the closed durations
plus the open activity's elapsed time equal `now` minus the first
observation's time.  The interval between `start_session` and the first
observation is attributed to nothing. -/
theorem C4_attribution :
    (∀ (st : MonitorState) (now : ℚ) (w : WindowInfo) (cls : ℚ × String)
        (st2 : MonitorState) (sess : FocusSessionR),
      st.currentSession = some sess →
      st.currentActivity = none →
      sess.activities = [] →
      processWindowChange st now w cls = some st2 →
      attributedFrom st2 now) ∧
    (∀ (st : MonitorState) (tFirst now : ℚ) (w : WindowInfo) (cls : ℚ × String)
        (st2 : MonitorState) (sess : FocusSessionR) (a : ActivityR) (t0 : ℚ),
      st.currentSession = some sess →
      st.currentActivity = some a →
      st.activityStart = some t0 →
      attributedFrom st tFirst →
      processWindowChange st now w cls = some st2 →
      attributedFrom st2 tFirst) ∧
    (∀ (st : MonitorState) (tFirst now : ℚ) (sess : FocusSessionR) (t0 : ℚ),
      attributedFrom st tFirst →
      st.currentSession = some sess →
      st.activityStart = some t0 →
      sumDur sess.activities + (now - t0) = now - tFirst) := by
  refine ⟨?_, ?_, ?_⟩
  · intro st now w cls st2 sess h1 hca hnil hpwc
    rw [pwcNoClose st now w cls sess h1 hca] at hpwc
    injection hpwc with hpwc
    subst hpwc
    intro sess2 tl hcs htl
    have e1 : some sess = some sess2 := hcs
    have e2 : some now = some tl := htl
    injection e1 with e1
    injection e2 with e2
    subst e1
    subst e2
    rw [hnil]
    norm_num [sumDur]
  · intro st tFirst now w cls st2 sess a t0 h1 hca hast hattr hpwc
    cases hsa : statsAdd st.sessionStats a.classification (now - t0) with
    | none =>
      simp only [processWindowChange, h1, hca, hast, hsa] at hpwc
      exact Option.noConfusion hpwc
    | some stats2 =>
      rw [pwcClose st now w cls sess a t0 stats2 h1 hca hast hsa] at hpwc
      injection hpwc with hpwc
      subst hpwc
      intro sess2 tl hcs htl
      have e1 : some ({ sess with activities :=
          sess.activities ++ [{ a with duration := some (now - t0) }] })
          = some sess2 := hcs
      have e2 : some now = some tl := htl
      injection e1 with e1
      injection e2 with e2
      subst e1
      subst e2
      show sumDur (sess.activities ++ [{ a with duration := some (now - t0) }])
        = now - tFirst
      rw [sumDur_append, hattr sess t0 h1 hast]
      simp only [durQ, Option.getD_some]
      ring
  · intro st tFirst now sess t0 hattr h1 hast
    rw [hattr sess t0 h1 hast]
    ring

/-- Witness for C4 (amended): establishment on `exStarted` at time `3`,
and the telescoped reading on `exMid` (first observation at `3`, open
since `5`, read at `9`). -/
theorem C4_attribution_witness :
    attributedFrom
      { currentSession := some exFresh,
        currentActivity := some (newActivity 3 ⟨"t", "p"⟩ (0.9, "DIRECT")),
        activityStart := some 3,
        sessionStats := zeroStats,
        recentActivities := [],
        contextSwitches := nextSwitches none "DIRECT" 0,
        lastClassification := some "DIRECT" } 3 ∧
    sumDur exSessClosed.activities + (9 - 5) = 9 - 3 :=
  ⟨C4_attribution.1 exStarted 3 ⟨"t", "p"⟩ (0.9, "DIRECT") _ exFresh rfl rfl rfl
     (pwcNoClose exStarted 3 ⟨"t", "p"⟩ (0.9, "DIRECT") exFresh rfl rfl),
   C4_attribution.2.2 exMid 3 9 exSessClosed 5
     (by
       intro sess tl hcs htl
       have e1 : some exSessClosed = some sess := hcs
       have e2 : some (5 : ℚ) = some tl := htl
       injection e1 with e1
       injection e2 with e2
       subst e1
       subst e2
       norm_num [exSessClosed, exClosed, exAct, exFresh, sumDur, durQ])
     rfl rfl⟩
